import Mathlib

/-!
Shallow embedding of the two AWS Lambda request handlers of the
rekognition-patient-id repository:

* `src/build-register/register_patient.py` — `handler` registers a patient
  face: parse body, decode base64, `reko.index_faces`, build a DynamoDB item,
  `ddb.put_item`, respond.
* `src/build-identify/identify_patient.py` — `handler` identifies a patient:
  parse body, decode base64, `reko.search_faces_by_image`, `ddb.query` on the
  `face_id-index`, respond.

External collaborators (the `json`, `base64` libraries, the Rekognition and
DynamoDB clients, and `time.time`) are modelled as oracle fields of an
environment structure; a call that raises a Python exception is an oracle
returning `Except.error msg`, where `msg` stands for `str(e)`.  The handlers
are total Lean functions returning the HTTP-style response together with the
list of store calls they performed, so that claims about side effects
(`put_item` never called, `query` never called) are statable.

Response bodies are modelled as the structured object passed to
`json.dumps`, not the serialized string: `json.dumps` is injective on the
values produced here, so every claim about body fields transfers.
-/

namespace RekoPatientId

/-- JSON-like values: the payloads flowing through both handlers
(parsed request bodies, attribute values, response bodies). -/
inductive JVal where
  | str (s : String)
  | num (q : ℚ)
  | bool (b : Bool)
  | null
  | arr (elems : List JVal)
  | obj (fields : List (String × JVal))

/-- Python truthiness, as used by `(body_raw or {})` in both handlers. -/
def JVal.isTruthy : JVal → Bool
  | .str s => s ≠ ""
  | .num q => q ≠ 0
  | .bool b => b
  | .null => false
  | .arr elems => !elems.isEmpty
  | .obj fields => !fields.isEmpty

/-- `isinstance(v, str)`. -/
def JVal.isStr : JVal → Bool
  | .str _ => true
  | _ => false

/-- `body[k]` on a parsed JSON value: `KeyError` when the key is absent,
`TypeError` when the value is not a dict.  The carried string stands for
`str(e)` of the raised exception. -/
def JVal.getKey : JVal → String → Except String JVal
  | .obj fields, k =>
      match fields.lookup k with
      | some v => .ok v
      | none => .error ("KeyError: " ++ k)
  | _, _ => .error "TypeError: value is not subscriptable"

/-- `body.get(k, default)`.  The handlers only reach this call after a
successful `body[k]`, so `body` is known to be a dict there. -/
def JVal.getD (v : JVal) (k : String) (d : JVal) : JVal :=
  match v with
  | .obj fields => (fields.lookup k).getD d
  | _ => d

/-- Field lookup in a response body object (used only in statements). -/
def JVal.lookupField : JVal → String → Option JVal
  | .obj fields, k => fields.lookup k
  | _, _ => none

/-- A DynamoDB attribute value: the single-entry dict `{tag: val}`, e.g.
`{'S': "abc"}` or `{'N': "123"}`.  `list(v.values())[0]` is `val`. -/
structure DDBVal where
  tag : String
  val : JVal

/-- A DynamoDB item: a Python dict from attribute names to typed values. -/
abbrev Item := List (String × DDBVal)

/-- Python dict assignment `d[k] = v`: replace the value in place when the
key is present (dicts have unique keys, so at most one entry matches),
append a new entry otherwise. -/
def dictInsert {α : Type} : List (String × α) → String → α → List (String × α)
  | [], k, v => [(k, v)]
  | p :: d, k, v => if p.1 = k then (k, v) :: d else p :: dictInsert d k v

/-- The Lambda event.  Only `event.get("body")` is read by either handler;
`none` models an event without a `body` key or with `body = None`. -/
structure Event where
  body : Option JVal

/-- The value returned by `_resp(code, obj)`: status code, the
`Content-Type` header, and the body object handed to `json.dumps`. -/
structure LambdaResponse where
  statusCode : Nat
  contentType : String
  body : JVal

/-- `_resp(code, obj)` from both source files. -/
def _resp (code : Nat) (o : JVal) : LambdaResponse :=
  ⟨code, "application/json", o⟩

/-- The failure body `{"error": str(e)}`. -/
def errObj (msg : String) : JVal := .obj [("error", .str msg)]

/-- A rejection body `{"message": msg}`. -/
def msgObj (msg : String) : JVal := .obj [("message", .str msg)]

/-- `body = json.loads(body_raw) if isinstance(body_raw, str) else (body_raw or {})`.
`jsonLoads` is the `json.loads` oracle; a parse failure is the raised
`json.JSONDecodeError`. -/
def parseBody (jsonLoads : String → Except String JVal) :
    Option JVal → Except String JVal
  | some (.str s) => jsonLoads s
  | some v => .ok (if v.isTruthy then v else .obj [])
  | none => .ok (.obj [])

/-- The `Face` object inside a Rekognition face record or face match. -/
structure Face where
  FaceId : String

/-- One element of `index_faces(...)` response key `FaceRecords`. -/
structure FaceRecord where
  Face : Face

/-- One element of `search_faces_by_image(...)` response key `FaceMatches`:
the matched face and its similarity score (a 0-100 percentage). -/
structure FaceMatch where
  Face : Face
  Similarity : ℚ

/-- Collaborators of the registration handler.  `index_faces` receives the
image bytes and the `ExternalImageId` (the patient id value, which the
handler never checks to be a string — a non-string makes the boto3 client
raise, i.e. the oracle return `.error`).  The response is the `FaceRecords`
list (a missing key is the empty list).  `now_ms i` is the value of the
`i`-th call to `_now_ms()` within the invocation. -/
structure RegEnv where
  json_loads : String → Except String JVal
  b64decode : JVal → Except String (List Nat)
  index_faces : List Nat → JVal → Except String (List FaceRecord)
  put_item : Item → Except String Unit
  now_ms : Nat → Nat

/-- The observable outcome of one registration invocation: the response and
the arguments of every `put_item` call that was issued. -/
structure RegOutcome where
  response : LambdaResponse
  put_calls : List Item

/-- One iteration of the attribute-merge loop:
`if isinstance(v, str): item[k] = {'S': v}`. -/
def attrStep (it : Item) (p : String × JVal) : Item :=
  match p.2 with
  | .str s => dictInsert it p.1 ⟨"S", .str s⟩
  | _ => it

/-- The attribute-merge loop of the registration handler:
`for k, v in attrs.items():` / `if isinstance(v, str): item[k] = {'S': v}`.
`attrs.items()` raises `AttributeError` when `attrs` is not a dict. -/
def mergeAttrs (item : Item) (attrs : JVal) : Except String Item :=
  match attrs with
  | .obj fields => .ok (fields.foldl attrStep item)
  | _ => .error "AttributeError: items"

/-- The dict literal `item = {'patient_id': ..., 'face_id': ...,
'created_at': ..., 'updated_at': ...}` built by the registration handler.
`_now_ms()` is called once for each timestamp, in this order. -/
def regItem0 (env : RegEnv) (patient_id : JVal) (face_id : String) : Item :=
  [("patient_id", ⟨"S", patient_id⟩),
   ("face_id", ⟨"S", .str face_id⟩),
   ("created_at", ⟨"N", .str (toString (env.now_ms 0))⟩),
   ("updated_at", ⟨"N", .str (toString (env.now_ms 1))⟩)]

/-- `handler(event, context)` of `src/build-register/register_patient.py`.
Every raised exception is caught by the outermost `try` and converted to a
status-500 response carrying `{"error": str(e)}`. -/
def register_handler (env : RegEnv) (event : Event) : RegOutcome :=
  match parseBody env.json_loads event.body with
  | .error e => ⟨_resp 500 (errObj e), []⟩
  | .ok body =>
    match body.getKey "image_base64" with
    | .error e => ⟨_resp 500 (errObj e), []⟩
    | .ok image_b64 =>
      match body.getKey "patient_id" with
      | .error e => ⟨_resp 500 (errObj e), []⟩
      | .ok patient_id =>
        let attrs := body.getD "attributes" (.obj [])
        match env.b64decode image_b64 with
        | .error e => ⟨_resp 500 (errObj e), []⟩
        | .ok img_bytes =>
          match env.index_faces img_bytes patient_id with
          | .error e => ⟨_resp 500 (errObj e), []⟩
          | .ok faceRecords =>
            match faceRecords with
            | [] => ⟨_resp 422 (msgObj "No face detected or poor quality."), []⟩
            | fr :: _ =>
              let face_id := fr.Face.FaceId
              match mergeAttrs (regItem0 env patient_id face_id) attrs with
              | .error e => ⟨_resp 500 (errObj e), []⟩
              | .ok item =>
                match env.put_item item with
                | .error e => ⟨_resp 500 (errObj e), [item]⟩
                | .ok _ =>
                    ⟨_resp 201 (.obj [("patient_id", patient_id),
                                      ("face_id", .str face_id)]),
                     [item]⟩

/-- Collaborators of the identification handler.  `search_faces_by_image`
receives the image bytes (the collection id, threshold and `MaxFaces=1` are
fixed configuration folded into the oracle) and returns the `FaceMatches`
list.  `query` receives the `face_id` key value of the secondary-index query
and returns the `Items` list. -/
structure IdEnv where
  json_loads : String → Except String JVal
  b64decode : JVal → Except String (List Nat)
  search_faces_by_image : List Nat → Except String (List FaceMatch)
  query : String → Except String (List Item)

/-- The observable outcome of one identification invocation: the response
and the `face_id` argument of every `query` call that was issued. -/
structure IdOutcome where
  response : LambdaResponse
  query_calls : List String

/-- `result = {k: list(v.values())[0] for k, v in item.items()}`: flatten the
typed DynamoDB item into plain values.  A dict comprehension over a dict
builds entries in iteration order with later duplicates overwriting. -/
def flattenItem (item : Item) : List (String × JVal) :=
  item.foldl (fun acc p => dictInsert acc p.1 p.2.val) []

/-- `handler(event, context)` of `src/build-identify/identify_patient.py`. -/
def identify_handler (env : IdEnv) (event : Event) : IdOutcome :=
  match parseBody env.json_loads event.body with
  | .error e => ⟨_resp 500 (errObj e), []⟩
  | .ok body =>
    match body.getKey "image_base64" with
    | .error e => ⟨_resp 500 (errObj e), []⟩
    | .ok image_b64 =>
      match env.b64decode image_b64 with
      | .error e => ⟨_resp 500 (errObj e), []⟩
      | .ok img_bytes =>
        match env.search_faces_by_image img_bytes with
        | .error e => ⟨_resp 500 (errObj e), []⟩
        | .ok faceMatches =>
          match faceMatches with
          | [] => ⟨_resp 404 (msgObj "No confident match"), []⟩
          | m :: _ =>
            let face_id := m.Face.FaceId
            let similarity := m.Similarity
            match env.query face_id with
            | .error e => ⟨_resp 500 (errObj e), [face_id]⟩
            | .ok items =>
              match items with
              | [] => ⟨_resp 404 (msgObj "Face mapped but no patient record"),
                       [face_id]⟩
              | item :: _ =>
                  let result := dictInsert (flattenItem item) "similarity"
                    (.num similarity)
                  ⟨_resp 200 (.obj result), [face_id]⟩

/-! ### Concrete sample data

Oracle instances and events used to instantiate the theorems on concrete
inputs.  Each oracle is a total function modelling one fixed behaviour of
the corresponding collaborator. -/

/-- The four field names written by the dict literal of the registration
handler before the attribute merge. -/
def coreKeys : List String := ["patient_id", "face_id", "created_at", "updated_at"]

/-- A `json.loads` oracle that always raises; the sample events below carry
an already-structured body, so this oracle is never consulted. -/
def jsonLoadsUnused : String → Except String JVal :=
  fun _ => .error "Expecting value: line 1 column 1"

/-- A `base64.b64decode` oracle that succeeds on every input. -/
def b64ok : JVal → Except String (List Nat) :=
  fun _ => .ok [104, 101, 108, 108, 111]

/-- A `base64.b64decode` oracle that raises `binascii.Error`. -/
def b64err : JVal → Except String (List Nat) :=
  fun _ => .error "Invalid base64-encoded string"

/-- An `index_faces` oracle returning one face record. -/
def indexOne : List Nat → JVal → Except String (List FaceRecord) :=
  fun _ _ => .ok [⟨⟨"face-1"⟩⟩]

/-- An `index_faces` oracle returning no face record (no face detected or
the quality filter rejected it). -/
def indexZero : List Nat → JVal → Except String (List FaceRecord) :=
  fun _ _ => .ok []

/-- A `put_item` oracle that always succeeds. -/
def putOk : Item → Except String Unit := fun _ => .ok ()

/-- A clock whose two readings within the invocation coincide. -/
def clockConst : Nat → Nat := fun _ => 1700000000000

/-- A clock that advances by one millisecond between the two `_now_ms()`
calls of the registration handler. -/
def clockTick : Nat → Nat := fun i => 1700000000000 + i

/-- A `search_faces_by_image` oracle returning one match at similarity
97.5. -/
def searchOne : List Nat → Except String (List FaceMatch) :=
  fun _ => .ok [⟨⟨"face-1"⟩, 195 / 2⟩]

/-- A `search_faces_by_image` oracle returning no match above the
threshold. -/
def searchZero : List Nat → Except String (List FaceMatch) :=
  fun _ => .ok []

/-- A stored patient record as returned by the secondary-index query. -/
def item1 : Item :=
  [("patient_id", ⟨"S", .str "P-1"⟩),
   ("face_id", ⟨"S", .str "face-1"⟩),
   ("created_at", ⟨"N", .str "1700000000000"⟩),
   ("name", ⟨"S", .str "Ada"⟩)]

/-- A stored patient record that itself carries a `similarity` field. -/
def itemSim : Item :=
  [("patient_id", ⟨"S", .str "P-1"⟩),
   ("similarity", ⟨"S", .str "high"⟩)]

/-- A `query` oracle finding `item1`. -/
def queryOne : String → Except String (List Item) := fun _ => .ok [item1]

/-- A `query` oracle finding no record. -/
def queryZero : String → Except String (List Item) := fun _ => .ok []

/-- A `query` oracle finding `itemSim`. -/
def querySim : String → Except String (List Item) := fun _ => .ok [itemSim]

/-- A well-formed registration body: image, patient id, and a mixed
attribute mapping (one string value, one numeric value). -/
def regBody1 : JVal :=
  .obj [("image_base64", .str "aGVsbG8="),
        ("patient_id", .str "P-1"),
        ("attributes", .obj [("name", .str "Ada"), ("age", .num 30)])]

/-- A registration body whose `attributes` value is a string, not a
mapping. -/
def regBodyBadAttrs : JVal :=
  .obj [("image_base64", .str "aGVsbG8="),
        ("patient_id", .str "P-1"),
        ("attributes", .str "oops")]

/-- A registration body whose `attributes` mapping overrides the core
`patient_id` field with a string value. -/
def regBodyOverride : JVal :=
  .obj [("image_base64", .str "aGVsbG8="),
        ("patient_id", .str "P-1"),
        ("attributes", .obj [("patient_id", .str "HIJACK")])]

/-- A well-formed identification body. -/
def idBody1 : JVal := .obj [("image_base64", .str "aGVsbG8=")]

def regEvent1 : Event := ⟨some regBody1⟩

def regEventBadAttrs : Event := ⟨some regBodyBadAttrs⟩

def regEventOverride : Event := ⟨some regBodyOverride⟩

def idEvent1 : Event := ⟨some idBody1⟩

/-- Registration environment: every collaborator succeeds, constant clock. -/
def regEnvOk : RegEnv := ⟨jsonLoadsUnused, b64ok, indexOne, putOk, clockConst⟩

/-- Registration environment: the recognizer returns no face record. -/
def regEnvNoFace : RegEnv := ⟨jsonLoadsUnused, b64ok, indexZero, putOk, clockConst⟩

/-- Registration environment: base64 decoding fails. -/
def regEnvBadB64 : RegEnv := ⟨jsonLoadsUnused, b64err, indexOne, putOk, clockConst⟩

/-- Registration environment: collaborators succeed, but the clock advances
between the two `_now_ms()` calls. -/
def regEnvTick : RegEnv := ⟨jsonLoadsUnused, b64ok, indexOne, putOk, clockTick⟩

/-- Identification environment: match found, record found. -/
def idEnvOk : IdEnv := ⟨jsonLoadsUnused, b64ok, searchOne, queryOne⟩

/-- Identification environment: no match above the threshold. -/
def idEnvNoMatch : IdEnv := ⟨jsonLoadsUnused, b64ok, searchZero, queryOne⟩

/-- Identification environment: match found, but no stored record. -/
def idEnvNoRec : IdEnv := ⟨jsonLoadsUnused, b64ok, searchOne, queryZero⟩

/-- Identification environment: base64 decoding fails. -/
def idEnvBadB64 : IdEnv := ⟨jsonLoadsUnused, b64err, searchOne, queryOne⟩

/-- Identification environment: match found, stored record carries its own
`similarity` field. -/
def idEnvSim : IdEnv := ⟨jsonLoadsUnused, b64ok, searchOne, querySim⟩

/-! ### Dictionary lemmas -/

theorem lookup_dictInsert_self {α : Type} (d : List (String × α)) (k : String) (v : α) :
    (dictInsert d k v).lookup k = some v := by
  induction d with
  | nil => simp [dictInsert]
  | cons p d ih =>
      obtain ⟨pk, pv⟩ := p
      by_cases h : pk = k
      · simp [dictInsert, h]
      · simp [dictInsert, h, List.lookup_cons, beq_false_of_ne (Ne.symm h), ih]

theorem lookup_dictInsert_ne {α : Type} (d : List (String × α)) (k k2 : String) (v : α)
    (h : k2 ≠ k) : (dictInsert d k v).lookup k2 = d.lookup k2 := by
  induction d with
  | nil => simp [dictInsert, List.lookup_cons, beq_false_of_ne h]
  | cons p d ih =>
      obtain ⟨pk, pv⟩ := p
      by_cases hp : pk = k
      · subst hp
        simp [dictInsert, List.lookup_cons, beq_false_of_ne h]
      · simp [dictInsert, hp, List.lookup_cons, ih]

/-- A successful lookup returns an entry of the list. -/
theorem mem_of_lookup {α : Type} (l : List (String × α)) (k : String) (x : α)
    (h : l.lookup k = some x) : (k, x) ∈ l := by
  induction l with
  | nil => simp at h
  | cons p l ih =>
      obtain ⟨pk, pv⟩ := p
      by_cases hk : k = pk
      · subst hk
        simp [List.lookup_cons] at h
        simp [h]
      · simp [List.lookup_cons, beq_false_of_ne hk] at h
        exact List.mem_cons_of_mem _ (ih h)

/-- Under unique keys, a list member is what lookup finds at its key. -/
theorem lookup_of_mem_nodup {α : Type} (l : List (String × α))
    (hnd : (l.map Prod.fst).Nodup) (k : String) (x : α) (hm : (k, x) ∈ l) :
    l.lookup k = some x := by
  induction l with
  | nil => simp at hm
  | cons p l ih =>
      obtain ⟨pk, pv⟩ := p
      simp only [List.map_cons, List.nodup_cons] at hnd
      rcases List.mem_cons.mp hm with h | h
      · obtain ⟨rfl, rfl⟩ := Prod.mk.injEq .. ▸ h
        simp [List.lookup_cons]
      · have hk : k ≠ pk := by
          rintro rfl
          exact hnd.1 (List.mem_map_of_mem Prod.fst h)
        simp [List.lookup_cons, beq_false_of_ne hk, ih hnd.2 h]

/-- Under unique keys, two members sharing a key are the same entry. -/
theorem entry_unique_of_nodup {α : Type} (l : List (String × α))
    (hnd : (l.map Prod.fst).Nodup) (p q : String × α)
    (hp : p ∈ l) (hq : q ∈ l) (hk : p.1 = q.1) : p = q := by
  induction l with
  | nil => simp at hp
  | cons r l ih =>
      simp only [List.map_cons, List.nodup_cons] at hnd
      rcases List.mem_cons.mp hp with h1 | h1 <;> rcases List.mem_cons.mp hq with h2 | h2
      · rw [h1, h2]
      · exact absurd (hk ▸ List.mem_map_of_mem Prod.fst h2) (h1 ▸ hnd.1)
      · exact absurd (hk ▸ List.mem_map_of_mem Prod.fst h1) (h2 ▸ hnd.1)
      · exact ih hnd.2 h1 h2

/-! ### Attribute-merge lemmas -/

/-- If no string-valued entry of `fields` has key `k`, the merge loop leaves
`lookup k` unchanged. -/
theorem foldl_attrStep_lookup_skip (fields : List (String × JVal)) (it : Item)
    (k : String) (hk : ∀ p ∈ fields, p.1 = k → p.2.isStr = false) :
    (fields.foldl attrStep it).lookup k = it.lookup k := by
  induction fields generalizing it with
  | nil => rfl
  | cons q fs ih =>
      obtain ⟨qk, qv⟩ := q
      rw [List.foldl_cons,
          ih _ (fun p hp hpk => hk p (List.mem_cons_of_mem _ hp) hpk)]
      cases qv with
      | str s =>
          have hqk : qk ≠ k := by
            intro h
            have := hk (qk, .str s) (List.mem_cons_self _ _) h
            simp [JVal.isStr] at this
          simp [attrStep, lookup_dictInsert_ne _ _ _ _ (Ne.symm hqk)]
      | num q => rfl
      | bool b => rfl
      | null => rfl
      | arr elems => rfl
      | obj ofs => rfl

/-- Under unique attribute keys, a string-valued entry lands in the merged
item as `{'S': v}` under its key. -/
theorem foldl_attrStep_lookup_str (fields : List (String × JVal)) (it : Item)
    (k s : String) (hnd : (fields.map Prod.fst).Nodup)
    (hx : fields.lookup k = some (.str s)) :
    (fields.foldl attrStep it).lookup k = some ⟨"S", .str s⟩ := by
  induction fields generalizing it with
  | nil => simp at hx
  | cons q fs ih =>
      obtain ⟨qk, qv⟩ := q
      simp only [List.map_cons, List.nodup_cons] at hnd
      by_cases hqk : qk = k
      · subst hqk
        simp only [List.lookup_cons, beq_self_eq_true] at hx
        have hqv : qv = .str s := by
          cases hx
          rfl
        subst hqv
        rw [List.foldl_cons]
        rw [foldl_attrStep_lookup_skip fs _ qk
            (fun p hp hpk => absurd (hpk ▸ List.mem_map_of_mem Prod.fst hp) hnd.1)]
        simp [attrStep, lookup_dictInsert_self]
      · rw [List.lookup_cons, beq_false_of_ne (Ne.symm hqk)] at hx
        rw [List.foldl_cons]
        exact ih _ hnd.2 hx

/-- Every key the merged item holds beyond the initial item comes from a
string-valued attribute entry. -/
theorem foldl_attrStep_lookup_inv (fields : List (String × JVal)) (it : Item)
    (k : String) (w : DDBVal)
    (hw : (fields.foldl attrStep it).lookup k = some w) :
    it.lookup k = some w ∨ ∃ s, (k, JVal.str s) ∈ fields ∧ w = ⟨"S", .str s⟩ := by
  induction fields generalizing it with
  | nil => exact Or.inl hw
  | cons q fs ih =>
      obtain ⟨qk, qv⟩ := q
      rw [List.foldl_cons] at hw
      rcases ih _ hw with h | ⟨s, hs, rfl⟩
      · cases qv with
        | str s =>
            by_cases hqk : qk = k
            · subst hqk
              rw [show attrStep it (qk, JVal.str s) =
                    dictInsert it qk ⟨"S", .str s⟩ from rfl,
                  lookup_dictInsert_self] at h
              cases h
              exact Or.inr ⟨s, List.mem_cons_self _ _, rfl⟩
            · rw [show attrStep it (qk, JVal.str s) =
                    dictInsert it qk ⟨"S", .str s⟩ from rfl,
                  lookup_dictInsert_ne _ _ _ _ (Ne.symm hqk)] at h
              exact Or.inl h
        | num q => exact Or.inl h
        | bool b => exact Or.inl h
        | null => exact Or.inl h
        | arr elems => exact Or.inl h
        | obj ofs => exact Or.inl h
      · exact Or.inr ⟨s, List.mem_cons_of_mem _ hs, rfl⟩

/-! ### Item-flattening lemmas -/

/-- If no entry of `l` has key `k`, the flattening fold leaves `lookup k`
unchanged. -/
theorem foldl_flatten_lookup_skip (l : Item) (init : List (String × JVal))
    (k : String) (hk : ∀ p ∈ l, p.1 ≠ k) :
    (l.foldl (fun acc p => dictInsert acc p.1 p.2.val) init).lookup k =
      init.lookup k := by
  induction l generalizing init with
  | nil => rfl
  | cons q fs ih =>
      rw [List.foldl_cons, ih _ (fun p hp => hk p (List.mem_cons_of_mem _ hp)),
          lookup_dictInsert_ne _ _ _ _ (Ne.symm (hk q (List.mem_cons_self _ _)))]

/-- Under unique keys, the flattening fold sends each stored entry to its
plain value, whatever the accumulator. -/
theorem foldl_flatten_lookup_mem (l : Item) (init : List (String × JVal))
    (hnd : (l.map Prod.fst).Nodup) (k : String) (v : DDBVal) (hv : (k, v) ∈ l) :
    (l.foldl (fun acc p => dictInsert acc p.1 p.2.val) init).lookup k =
      some v.val := by
  induction l generalizing init with
  | nil => simp at hv
  | cons q fs ih =>
      obtain ⟨qk, qv⟩ := q
      simp only [List.map_cons, List.nodup_cons] at hnd
      rw [List.foldl_cons]
      rcases List.mem_cons.mp hv with h | h
      · have hk1 : qk = k := ((Prod.mk.injEq ..).mp h.symm).1
        have hv1 : qv = v := ((Prod.mk.injEq ..).mp h.symm).2
        have hnokey : ∀ p ∈ fs, p.1 ≠ k := by
          intro p hp hpk
          apply hnd.1
          rw [hk1, ← hpk]
          exact List.mem_map_of_mem Prod.fst hp
        rw [foldl_flatten_lookup_skip fs _ k hnokey, hk1, hv1]
        apply lookup_dictInsert_self
      · exact ih _ hnd.2 h

/-- Under unique keys, flattening sends each stored entry to its plain
value. -/
theorem lookup_flattenItem (item : Item) (hnd : (item.map Prod.fst).Nodup)
    (k : String) (v : DDBVal) (hv : (k, v) ∈ item) :
    (flattenItem item).lookup k = some v.val :=
  foldl_flatten_lookup_mem item [] hnd k v hv

/-! ### Core-item lemmas -/

theorem lookup_regItem0_patient (env : RegEnv) (pid : JVal) (fid : String) :
    (regItem0 env pid fid).lookup "patient_id" = some ⟨"S", pid⟩ := rfl

theorem lookup_regItem0_face (env : RegEnv) (pid : JVal) (fid : String) :
    (regItem0 env pid fid).lookup "face_id" = some ⟨"S", .str fid⟩ := rfl

theorem lookup_regItem0_created (env : RegEnv) (pid : JVal) (fid : String) :
    (regItem0 env pid fid).lookup "created_at" =
      some ⟨"N", .str (toString (env.now_ms 0))⟩ := rfl

theorem lookup_regItem0_updated (env : RegEnv) (pid : JVal) (fid : String) :
    (regItem0 env pid fid).lookup "updated_at" =
      some ⟨"N", .str (toString (env.now_ms 1))⟩ := rfl

theorem lookup_regItem0_other (env : RegEnv) (pid : JVal) (fid : String)
    (k : String) (hk : k ∉ coreKeys) : (regItem0 env pid fid).lookup k = none := by
  simp only [coreKeys, List.mem_cons, List.not_mem_nil, or_false, not_or] at hk
  obtain ⟨h1, h2, h3, h4⟩ := hk
  simp [regItem0, List.lookup_cons, beq_false_of_ne h1, beq_false_of_ne h2,
        beq_false_of_ne h3, beq_false_of_ne h4]

/-! ### Claim theorems -/

/-- C3: when the recognition collaborator returns no face record, the
registration handler responds with status 422 and the human-readable
message "No face detected or poor quality.", whatever the attributes in
the request, and issues no `put_item` call in that invocation. -/
theorem register_no_face_422 (env : RegEnv) (event : Event) (body img pid : JVal)
    (bytes : List Nat)
    (hparse : parseBody env.json_loads event.body = .ok body)
    (himg : body.getKey "image_base64" = .ok img)
    (hpid : body.getKey "patient_id" = .ok pid)
    (hdec : env.b64decode img = .ok bytes)
    (hidx : env.index_faces bytes pid = .ok []) :
    (register_handler env event).response =
      _resp 422 (msgObj "No face detected or poor quality.") ∧
    (register_handler env event).put_calls = [] := by
  simp only [register_handler, hparse, himg, hpid, hdec, hidx]
  exact ⟨trivial, trivial⟩

/-- C3 witness: the 422 path on a concrete event and environment. -/
theorem register_no_face_422_witness :
    (register_handler regEnvNoFace regEvent1).response =
      _resp 422 (msgObj "No face detected or poor quality.") ∧
    (register_handler regEnvNoFace regEvent1).put_calls = [] :=
  register_no_face_422 regEnvNoFace regEvent1 regBody1 (.str "aGVsbG8=")
    (.str "P-1") [104, 101, 108, 108, 111] rfl rfl rfl rfl rfl

/-- C4: when the recognition collaborator returns no match, the
identification handler responds with status 404 and the message
"No confident match", and never queries the store in that invocation. -/
theorem identify_no_match_404 (env : IdEnv) (event : Event) (body img : JVal)
    (bytes : List Nat)
    (hparse : parseBody env.json_loads event.body = .ok body)
    (himg : body.getKey "image_base64" = .ok img)
    (hdec : env.b64decode img = .ok bytes)
    (hsearch : env.search_faces_by_image bytes = .ok []) :
    (identify_handler env event).response = _resp 404 (msgObj "No confident match") ∧
    (identify_handler env event).query_calls = [] := by
  simp only [identify_handler, hparse, himg, hdec, hsearch]
  exact ⟨trivial, trivial⟩

/-- C4 witness: the no-match path on a concrete event and environment. -/
theorem identify_no_match_404_witness :
    (identify_handler idEnvNoMatch idEvent1).response =
      _resp 404 (msgObj "No confident match") ∧
    (identify_handler idEnvNoMatch idEvent1).query_calls = [] :=
  identify_no_match_404 idEnvNoMatch idEvent1 idBody1 (.str "aGVsbG8=")
    [104, 101, 108, 108, 111] rfl rfl rfl rfl

/-- C5: when the recognition collaborator returns a match but the
secondary-index query for that face id finds no record, the identification
handler responds with status 404 and the message
"Face mapped but no patient record". -/
theorem identify_no_record_404 (env : IdEnv) (event : Event) (body img : JVal)
    (bytes : List Nat) (m : FaceMatch) (rest : List FaceMatch)
    (hparse : parseBody env.json_loads event.body = .ok body)
    (himg : body.getKey "image_base64" = .ok img)
    (hdec : env.b64decode img = .ok bytes)
    (hsearch : env.search_faces_by_image bytes = .ok (m :: rest))
    (hquery : env.query m.Face.FaceId = .ok []) :
    (identify_handler env event).response =
      _resp 404 (msgObj "Face mapped but no patient record") := by
  simp only [identify_handler, hparse, himg, hdec, hsearch, hquery]

/-- C5 witness: the mapped-but-unlinked path on a concrete event and
environment. -/
theorem identify_no_record_404_witness :
    (identify_handler idEnvNoRec idEvent1).response =
      _resp 404 (msgObj "Face mapped but no patient record") :=
  identify_no_record_404 idEnvNoRec idEvent1 idBody1 (.str "aGVsbG8=")
    [104, 101, 108, 108, 111] ⟨⟨"face-1"⟩, 195 / 2⟩ [] rfl rfl rfl rfl rfl

/-- C1 (amended): for a parsed body containing `image_base64` and
`patient_id`, decodable base64, a recognizer returning at least one face
record, an `attributes` value that is a mapping (an absent key defaults to
the empty mapping), and a store accepting the put, the registration handler
responds 201 with a body holding exactly the request's `patient_id` and the
first face record's `face_id`. -/
theorem register_success_201 (env : RegEnv) (event : Event) (body img pid : JVal)
    (bytes : List Nat) (fr : FaceRecord) (rest : List FaceRecord)
    (afs : List (String × JVal))
    (hparse : parseBody env.json_loads event.body = .ok body)
    (himg : body.getKey "image_base64" = .ok img)
    (hpid : body.getKey "patient_id" = .ok pid)
    (hdec : env.b64decode img = .ok bytes)
    (hidx : env.index_faces bytes pid = .ok (fr :: rest))
    (hattrs : body.getD "attributes" (.obj []) = .obj afs)
    (hput : ∀ it, env.put_item it = .ok ()) :
    (register_handler env event).response =
      _resp 201 (.obj [("patient_id", pid), ("face_id", .str fr.Face.FaceId)]) := by
  simp only [register_handler, hparse, himg, hpid, hdec, hidx, hattrs, mergeAttrs,
    hput]

/-- C1 (counterexample to the claim as stated): a request whose body parses,
contains both required fields and decodable base64, and for which the
recognizer returns a face record — but whose `attributes` value is a
string.  `attrs.items()` raises `AttributeError`, so the handler responds
500, not 201. -/
theorem register_success_201_cex :
    parseBody regEnvOk.json_loads regEventBadAttrs.body = .ok regBodyBadAttrs ∧
    regBodyBadAttrs.getKey "image_base64" = .ok (.str "aGVsbG8=") ∧
    regBodyBadAttrs.getKey "patient_id" = .ok (.str "P-1") ∧
    regEnvOk.b64decode (.str "aGVsbG8=") = .ok [104, 101, 108, 108, 111] ∧
    regEnvOk.index_faces [104, 101, 108, 108, 111] (.str "P-1") =
      .ok [⟨⟨"face-1"⟩⟩] ∧
    (register_handler regEnvOk regEventBadAttrs).response.statusCode = 500 ∧
    (register_handler regEnvOk regEventBadAttrs).response.statusCode ≠ 201 := by
  refine ⟨rfl, rfl, rfl, rfl, rfl, rfl, ?_⟩
  decide

/-- C1 witness: a concrete successful registration. -/
theorem register_success_201_witness :
    (register_handler regEnvOk regEvent1).response =
      _resp 201 (.obj [("patient_id", .str "P-1"), ("face_id", .str "face-1")]) :=
  register_success_201 regEnvOk regEvent1 regBody1 (.str "aGVsbG8=") (.str "P-1")
    [104, 101, 108, 108, 111] ⟨⟨"face-1"⟩⟩ []
    [("name", .str "Ada"), ("age", .num 30)]
    rfl rfl rfl rfl rfl rfl (fun _ => rfl)

/-- C7: in both handlers, a base64 decode failure (a raised
`binascii.Error` with a non-empty message) yields status 500 with body
`{"error": msg}` for that non-empty message, and in particular never a 4xx
status. -/
theorem malformed_b64_500 :
    (∀ (env : RegEnv) (event : Event) (body img pid : JVal) (msg : String),
      parseBody env.json_loads event.body = .ok body →
      body.getKey "image_base64" = .ok img →
      body.getKey "patient_id" = .ok pid →
      env.b64decode img = .error msg →
      msg ≠ "" →
      (register_handler env event).response = _resp 500 (errObj msg) ∧
      ¬(400 ≤ (register_handler env event).response.statusCode ∧
        (register_handler env event).response.statusCode < 500)) ∧
    (∀ (env : IdEnv) (event : Event) (body img : JVal) (msg : String),
      parseBody env.json_loads event.body = .ok body →
      body.getKey "image_base64" = .ok img →
      env.b64decode img = .error msg →
      msg ≠ "" →
      (identify_handler env event).response = _resp 500 (errObj msg) ∧
      ¬(400 ≤ (identify_handler env event).response.statusCode ∧
        (identify_handler env event).response.statusCode < 500)) := by
  constructor
  · intro env event body img pid msg hparse himg hpid hdec hne
    have h : (register_handler env event).response = _resp 500 (errObj msg) := by
      simp only [register_handler, hparse, himg, hpid, hdec]
    rw [h]
    exact ⟨rfl, by simp [_resp]⟩
  · intro env event body img msg hparse himg hdec hne
    have h : (identify_handler env event).response = _resp 500 (errObj msg) := by
      simp only [identify_handler, hparse, himg, hdec]
    rw [h]
    exact ⟨rfl, by simp [_resp]⟩

/-- C7 witness: concrete malformed-base64 runs of both handlers. -/
theorem malformed_b64_500_witness :
    ((register_handler regEnvBadB64 regEvent1).response =
      _resp 500 (errObj "Invalid base64-encoded string") ∧
      ¬(400 ≤ (register_handler regEnvBadB64 regEvent1).response.statusCode ∧
        (register_handler regEnvBadB64 regEvent1).response.statusCode < 500)) ∧
    ((identify_handler idEnvBadB64 idEvent1).response =
      _resp 500 (errObj "Invalid base64-encoded string") ∧
      ¬(400 ≤ (identify_handler idEnvBadB64 idEvent1).response.statusCode ∧
        (identify_handler idEnvBadB64 idEvent1).response.statusCode < 500)) :=
  ⟨malformed_b64_500.1 regEnvBadB64 regEvent1 regBody1 (.str "aGVsbG8=")
      (.str "P-1") "Invalid base64-encoded string" rfl rfl rfl rfl (by decide),
   malformed_b64_500.2 idEnvBadB64 idEvent1 idBody1 (.str "aGVsbG8=")
      "Invalid base64-encoded string" rfl rfl rfl (by decide)⟩

/-- C2 (amended): when the recognizer returns a match and the
secondary-index query finds a record (with unique attribute names), the
identification handler responds 200; the body carries every stored field
other than `similarity` flattened verbatim, plus a `similarity` field equal
to the match's reported score — a stored `similarity` field is overwritten
by that score. -/
theorem identify_success_200 (env : IdEnv) (event : Event) (body img : JVal)
    (bytes : List Nat) (m : FaceMatch) (rest : List FaceMatch)
    (item : Item) (restItems : List Item)
    (hparse : parseBody env.json_loads event.body = .ok body)
    (himg : body.getKey "image_base64" = .ok img)
    (hdec : env.b64decode img = .ok bytes)
    (hsearch : env.search_faces_by_image bytes = .ok (m :: rest))
    (hquery : env.query m.Face.FaceId = .ok (item :: restItems))
    (hnd : (item.map Prod.fst).Nodup) :
    (identify_handler env event).response.statusCode = 200 ∧
    (identify_handler env event).response.body.lookupField "similarity" =
      some (.num m.Similarity) ∧
    ∀ k v, (k, v) ∈ item → k ≠ "similarity" →
      (identify_handler env event).response.body.lookupField k = some v.val := by
  have hrun : identify_handler env event =
      ⟨_resp 200 (.obj (dictInsert (flattenItem item) "similarity"
          (.num m.Similarity))),
       [m.Face.FaceId]⟩ := by
    simp only [identify_handler, hparse, himg, hdec, hsearch, hquery]
  rw [hrun]
  refine ⟨rfl, ?_, ?_⟩
  · simp only [_resp, JVal.lookupField]
    exact lookup_dictInsert_self ..
  · intro k v hm hk
    simp only [_resp, JVal.lookupField]
    rw [lookup_dictInsert_ne _ _ _ _ hk]
    exact lookup_flattenItem item hnd k v hm

/-- C2 (counterexample to the claim as stated): when the stored record
itself carries a `similarity` field, the match score overwrites it, so the
response does not include every stored field verbatim. -/
theorem identify_success_200_cex :
    (identify_handler idEnvSim idEvent1).response.statusCode = 200 ∧
    ("similarity", (⟨"S", .str "high"⟩ : DDBVal)) ∈ itemSim ∧
    (identify_handler idEnvSim idEvent1).response.body.lookupField "similarity" =
      some (.num (195 / 2)) ∧
    ¬ (∀ k v, (k, v) ∈ itemSim →
        (identify_handler idEnvSim idEvent1).response.body.lookupField k =
          some v.val) := by
  refine ⟨rfl, List.mem_cons_of_mem _ (List.mem_cons_self _ _), rfl, ?_⟩
  intro h
  have h1 : (identify_handler idEnvSim idEvent1).response.body.lookupField
      "similarity" = some (JVal.str "high") :=
    h "similarity" ⟨"S", .str "high"⟩
      (List.mem_cons_of_mem _ (List.mem_cons_self _ _))
  have h2 : (identify_handler idEnvSim idEvent1).response.body.lookupField
      "similarity" = some (JVal.num (195 / 2)) := rfl
  rw [h1] at h2
  simp at h2

/-- C2 witness: a concrete successful identification against `item1`. -/
theorem identify_success_200_witness :
    (identify_handler idEnvOk idEvent1).response.statusCode = 200 ∧
    (identify_handler idEnvOk idEvent1).response.body.lookupField "similarity" =
      some (.num (195 / 2)) ∧
    ∀ k v, (k, v) ∈ item1 → k ≠ "similarity" →
      (identify_handler idEnvOk idEvent1).response.body.lookupField k =
        some v.val :=
  identify_success_200 idEnvOk idEvent1 idBody1 (.str "aGVsbG8=")
    [104, 101, 108, 108, 111] ⟨⟨"face-1"⟩, 195 / 2⟩ [] item1 []
    rfl rfl rfl rfl rfl (by decide)

/-- C6: whenever the registration handler issues its put, the persisted
record carries exactly the string-valued attribute entries beyond the four
core fields: every string-valued entry appears as `{'S': value}` under its
key, every non-string-valued entry under a non-core key is absent (dropped,
not rejected), and every non-core field of the record comes from a
string-valued entry. -/
theorem register_attrs_exactly_strings (env : RegEnv) (event : Event)
    (body img pid : JVal) (bytes : List Nat) (fr : FaceRecord)
    (rest : List FaceRecord) (afs : List (String × JVal))
    (hparse : parseBody env.json_loads event.body = .ok body)
    (himg : body.getKey "image_base64" = .ok img)
    (hpid : body.getKey "patient_id" = .ok pid)
    (hdec : env.b64decode img = .ok bytes)
    (hidx : env.index_faces bytes pid = .ok (fr :: rest))
    (hattrs : body.getD "attributes" (.obj []) = .obj afs)
    (hnd : (afs.map Prod.fst).Nodup) :
    ∃ it, (register_handler env event).put_calls = [it] ∧
      (∀ k s, afs.lookup k = some (.str s) → it.lookup k = some ⟨"S", .str s⟩) ∧
      (∀ k v, k ∉ coreKeys → afs.lookup k = some v → v.isStr = false →
        it.lookup k = none) ∧
      (∀ k w, k ∉ coreKeys → it.lookup k = some w →
        ∃ s, (k, JVal.str s) ∈ afs ∧ w = ⟨"S", .str s⟩) := by
  refine ⟨afs.foldl attrStep (regItem0 env pid fr.Face.FaceId), ?_, ?_, ?_, ?_⟩
  · rcases hput : env.put_item (afs.foldl attrStep (regItem0 env pid fr.Face.FaceId))
      with e | u
    · simp only [register_handler, hparse, himg, hpid, hdec, hidx, hattrs,
        mergeAttrs, hput]
    · simp only [register_handler, hparse, himg, hpid, hdec, hidx, hattrs,
        mergeAttrs, hput]
  · exact fun k s hks => foldl_attrStep_lookup_str afs _ k s hnd hks
  · intro k v hk hv hstr
    have hall : ∀ p ∈ afs, p.1 = k → p.2.isStr = false := by
      intro p hp hpk
      have he : p = (k, v) :=
        entry_unique_of_nodup afs hnd p (k, v) hp (mem_of_lookup afs k v hv)
          (by rw [hpk])
      rw [he]
      exact hstr
    rw [foldl_attrStep_lookup_skip afs _ k hall]
    exact lookup_regItem0_other env pid _ k hk
  · intro k w hk hw
    rcases foldl_attrStep_lookup_inv afs _ k w hw with h | h
    · rw [lookup_regItem0_other env pid _ k hk] at h
      cases h
    · exact h

/-- C6 witness: on a concrete request, `name` (a string) is persisted and
`age` (a number) is dropped. -/
theorem register_attrs_exactly_strings_witness :
    ∃ it, (register_handler regEnvOk regEvent1).put_calls = [it] ∧
      (∀ k s, ([("name", JVal.str "Ada"), ("age", JVal.num 30)]).lookup k =
          some (.str s) → it.lookup k = some ⟨"S", .str s⟩) ∧
      (∀ k v, k ∉ coreKeys →
        ([("name", JVal.str "Ada"), ("age", JVal.num 30)]).lookup k = some v →
        v.isStr = false → it.lookup k = none) ∧
      (∀ k w, k ∉ coreKeys → it.lookup k = some w →
        ∃ s, (k, JVal.str s) ∈ [("name", JVal.str "Ada"), ("age", JVal.num 30)] ∧
          w = ⟨"S", .str s⟩) :=
  register_attrs_exactly_strings regEnvOk regEvent1 regBody1 (.str "aGVsbG8=")
    (.str "P-1") [104, 101, 108, 108, 111] ⟨⟨"face-1"⟩⟩ []
    [("name", .str "Ada"), ("age", .num 30)]
    rfl rfl rfl rfl rfl rfl (by decide)

/-- C9 (amended): in a persisting registration whose attributes do not
override the timestamp fields, the record's `created_at` holds the first
`_now_ms()` reading and `updated_at` the second; the two fields are equal
whenever the clock does not advance between the two calls. -/
theorem register_timestamps (env : RegEnv) (event : Event) (body img pid : JVal)
    (bytes : List Nat) (fr : FaceRecord) (rest : List FaceRecord)
    (afs : List (String × JVal))
    (hparse : parseBody env.json_loads event.body = .ok body)
    (himg : body.getKey "image_base64" = .ok img)
    (hpid : body.getKey "patient_id" = .ok pid)
    (hdec : env.b64decode img = .ok bytes)
    (hidx : env.index_faces bytes pid = .ok (fr :: rest))
    (hattrs : body.getD "attributes" (.obj []) = .obj afs)
    (hc : "created_at" ∉ afs.map Prod.fst)
    (hu : "updated_at" ∉ afs.map Prod.fst) :
    ∃ it, (register_handler env event).put_calls = [it] ∧
      it.lookup "created_at" = some ⟨"N", .str (toString (env.now_ms 0))⟩ ∧
      it.lookup "updated_at" = some ⟨"N", .str (toString (env.now_ms 1))⟩ ∧
      (env.now_ms 0 = env.now_ms 1 →
        it.lookup "created_at" = it.lookup "updated_at") := by
  have hcs : ∀ p ∈ afs, p.1 = "created_at" → p.2.isStr = false :=
    fun p hp hpk => absurd (hpk ▸ List.mem_map_of_mem Prod.fst hp) hc
  have hus : ∀ p ∈ afs, p.1 = "updated_at" → p.2.isStr = false :=
    fun p hp hpk => absurd (hpk ▸ List.mem_map_of_mem Prod.fst hp) hu
  refine ⟨afs.foldl attrStep (regItem0 env pid fr.Face.FaceId), ?_, ?_, ?_, ?_⟩
  · rcases hput : env.put_item (afs.foldl attrStep (regItem0 env pid fr.Face.FaceId))
      with e | u
    · simp only [register_handler, hparse, himg, hpid, hdec, hidx, hattrs,
        mergeAttrs, hput]
    · simp only [register_handler, hparse, himg, hpid, hdec, hidx, hattrs,
        mergeAttrs, hput]
  · rw [foldl_attrStep_lookup_skip afs _ _ hcs]
    exact lookup_regItem0_created env pid _
  · rw [foldl_attrStep_lookup_skip afs _ _ hus]
    exact lookup_regItem0_updated env pid _
  · intro hclock
    rw [foldl_attrStep_lookup_skip afs _ _ hcs,
        foldl_attrStep_lookup_skip afs _ _ hus,
        lookup_regItem0_created env pid _, lookup_regItem0_updated env pid _,
        hclock]

/-- C9 (counterexample to the claim as stated): with a clock that advances
by one millisecond between the two `_now_ms()` calls, the persisted record
has `created_at` different from `updated_at`. -/
theorem register_timestamps_cex :
    ((register_handler regEnvTick regEvent1).put_calls.headD []).lookup
      "created_at" = some ⟨"N", .str "1700000000000"⟩ ∧
    ((register_handler regEnvTick regEvent1).put_calls.headD []).lookup
      "updated_at" = some ⟨"N", .str "1700000000001"⟩ ∧
    ((register_handler regEnvTick regEvent1).put_calls.headD []).lookup
      "created_at" ≠
    ((register_handler regEnvTick regEvent1).put_calls.headD []).lookup
      "updated_at" := by
  refine ⟨rfl, rfl, ?_⟩
  intro h
  have h2 : (some (⟨"N", JVal.str "1700000000000"⟩ : DDBVal)) =
      some ⟨"N", JVal.str "1700000000001"⟩ :=
    calc some (⟨"N", JVal.str "1700000000000"⟩ : DDBVal)
        = ((register_handler regEnvTick regEvent1).put_calls.headD []).lookup
            "created_at" := rfl
      _ = ((register_handler regEnvTick regEvent1).put_calls.headD []).lookup
            "updated_at" := h
      _ = some ⟨"N", JVal.str "1700000000001"⟩ := rfl
  simp at h2

/-- C9 witness: with a clock whose two readings coincide, the persisted
timestamps are equal. -/
theorem register_timestamps_witness :
    ∃ it, (register_handler regEnvOk regEvent1).put_calls = [it] ∧
      it.lookup "created_at" =
        some ⟨"N", .str (toString (regEnvOk.now_ms 0))⟩ ∧
      it.lookup "updated_at" =
        some ⟨"N", .str (toString (regEnvOk.now_ms 1))⟩ ∧
      (regEnvOk.now_ms 0 = regEnvOk.now_ms 1 →
        it.lookup "created_at" = it.lookup "updated_at") :=
  register_timestamps regEnvOk regEvent1 regBody1 (.str "aGVsbG8=")
    (.str "P-1") [104, 101, 108, 108, 111] ⟨⟨"face-1"⟩⟩ []
    [("name", .str "Ada"), ("age", .num 30)]
    rfl rfl rfl rfl rfl rfl (by decide) (by decide)

/-- C10: a string-valued attribute entry under one of the four core keys
overwrites that core field in the persisted record with the attribute's
value, while the 201 response still reports the request's `patient_id` and
the recognizer's `face_id`. -/
theorem register_attr_overrides_core (env : RegEnv) (event : Event)
    (body img pid : JVal) (bytes : List Nat) (fr : FaceRecord)
    (rest : List FaceRecord) (afs : List (String × JVal)) (k s : String)
    (hparse : parseBody env.json_loads event.body = .ok body)
    (himg : body.getKey "image_base64" = .ok img)
    (hpid : body.getKey "patient_id" = .ok pid)
    (hdec : env.b64decode img = .ok bytes)
    (hidx : env.index_faces bytes pid = .ok (fr :: rest))
    (hattrs : body.getD "attributes" (.obj []) = .obj afs)
    (hnd : (afs.map Prod.fst).Nodup)
    (hcore : k ∈ coreKeys)
    (hks : afs.lookup k = some (.str s))
    (hput : ∀ it, env.put_item it = .ok ()) :
    ∃ it, (register_handler env event).put_calls = [it] ∧
      it.lookup k = some ⟨"S", .str s⟩ ∧
      (register_handler env event).response =
        _resp 201 (.obj [("patient_id", pid), ("face_id", .str fr.Face.FaceId)]) := by
  refine ⟨afs.foldl attrStep (regItem0 env pid fr.Face.FaceId), ?_, ?_, ?_⟩
  · simp only [register_handler, hparse, himg, hpid, hdec, hidx, hattrs,
      mergeAttrs, hput]
  · exact foldl_attrStep_lookup_str afs _ k s hnd hks
  · simp only [register_handler, hparse, himg, hpid, hdec, hidx, hattrs,
      mergeAttrs, hput]

/-- C10 witness: an attribute entry named `patient_id` overwrites the core
field in the persisted record while the response still reports the
request's `patient_id`. -/
theorem register_attr_overrides_core_witness :
    ∃ it, (register_handler regEnvOk regEventOverride).put_calls = [it] ∧
      it.lookup "patient_id" = some ⟨"S", .str "HIJACK"⟩ ∧
      (register_handler regEnvOk regEventOverride).response =
        _resp 201 (.obj [("patient_id", .str "P-1"), ("face_id", .str "face-1")]) :=
  register_attr_overrides_core regEnvOk regEventOverride regBodyOverride
    (.str "aGVsbG8=") (.str "P-1") [104, 101, 108, 108, 111] ⟨⟨"face-1"⟩⟩ []
    [("patient_id", .str "HIJACK")] "patient_id" "HIJACK"
    rfl rfl rfl rfl rfl rfl (by decide) (by decide) rfl (fun _ => rfl)

/-- C8: each handler is a total function of the event and of any
collaborator behaviour (every raised exception becomes a returned
response), and every response falls into the documented taxonomy: the
success shape, a documented rejection message, or status 500 with body
`{"error": msg}` carrying the underlying message. -/
theorem handlers_total_taxonomy :
    (∀ (env : RegEnv) (event : Event),
      ((register_handler env event).response.statusCode = 201 ∧
        ∃ pid fid, (register_handler env event).response.body =
          .obj [("patient_id", pid), ("face_id", .str fid)]) ∨
      ((register_handler env event).response.statusCode = 422 ∧
        (register_handler env event).response.body =
          msgObj "No face detected or poor quality.") ∨
      ((register_handler env event).response.statusCode = 500 ∧
        ∃ m, (register_handler env event).response.body = errObj m)) ∧
    (∀ (env : IdEnv) (event : Event),
      (identify_handler env event).response.statusCode = 200 ∨
      ((identify_handler env event).response.statusCode = 404 ∧
        ((identify_handler env event).response.body =
            msgObj "No confident match" ∨
         (identify_handler env event).response.body =
            msgObj "Face mapped but no patient record")) ∨
      ((identify_handler env event).response.statusCode = 500 ∧
        ∃ m, (identify_handler env event).response.body = errObj m)) := by
  constructor
  · intro env event
    unfold register_handler
    repeat' (first | split | dsimp only)
    all_goals simp [_resp, errObj, msgObj]
  · intro env event
    unfold identify_handler
    repeat' (first | split | dsimp only)
    all_goals simp [_resp, errObj, msgObj]

end RekoPatientId
